import Mathlib

/-!
Verification of the validation-and-authentication core of the medical
patient portal: the field validators and form validators of forms.py and
the session/auth guard of routes.py, embedded shallowly.  Strings are
modelled over their ASCII fragment (all message text and all characters
the rules inspect are ASCII); the ambient clock and the record store are
explicit parameters.
-/

namespace Medical

/-- ASCII whitespace set of Python str.strip / the regex class \s. -/
def isPySpace (c : Char) : Bool :=
  c == ' ' || c == '\t' || c == '\n' || c == '\r' || c == '\x0B' || c == '\x0C'

/-- Python str.strip(): remove leading and trailing whitespace. -/
def pyStrip (s : String) : String :=
  ⟨((s.data.dropWhile isPySpace).reverse.dropWhile isPySpace).reverse⟩

/-- Python str.lower() on ASCII text. -/
def pyLower (s : String) : String :=
  ⟨s.data.map Char.toLower⟩

/-- Worker for pyTitle: the Boolean records whether the previous character
was a letter (a cased character). -/
def pyTitleGo : Bool → List Char → List Char
  | _, [] => []
  | prev, c :: cs =>
    (if c.isAlpha then (if prev then c.toLower else c.toUpper) else c)
      :: pyTitleGo c.isAlpha cs

/-- Python str.title() on ASCII text: a letter after a non-letter is
upper-cased, a letter after a letter is lower-cased. -/
def pyTitle (s : String) : String :=
  ⟨pyTitleGo false s.data⟩

/-- Python field.replace with a single-character pattern: here only
underscore to space is needed. -/
def replaceUnderscore (s : String) : String :=
  ⟨s.data.map (fun c => if c == '_' then ' ' else c)⟩

/-- A form submission: a finite map from field name to raw string value,
modelled as an association list with first-match lookup. -/
def Submission := List (String × String)

/-- Dictionary lookup: data[field] when present. -/
def Submission.get? : Submission → String → Option String
  | [], _ => none
  | (k, v) :: rest, field => if k == field then some v else Submission.get? rest field

/-- Membership test: field in data. -/
def Submission.hasKey (d : Submission) (field : String) : Bool :=
  (Submission.get? d field).isSome

namespace FormValidator

/-- The failing condition of the required-field loop body:
field not in data or not data[field] or str(data[field]).strip() == ''. -/
def requiredFieldMissing (data : Submission) (field : String) : Bool :=
  match Submission.get? data field with
  | none => true
  | some v => v == "" || pyStrip v == ""

/-- forms.py FormValidator.validate_required_fields: one
"<Field Label> is required" error per missing or blank required field,
the label obtained by replacing underscores with spaces and title-casing. -/
def validate_required_fields (data : Submission) (required_fields : List String) :
    List String :=
  required_fields.filterMap (fun field =>
    if requiredFieldMissing data field then
      some (pyTitle (replaceUnderscore field) ++ " is required")
    else none)

/-- Character class [a-zA-Z0-9._%+-] of the local part of the email regex. -/
def emailLocalChar (c : Char) : Bool :=
  c.isAlphanum || c == '.' || c == '_' || c == '%' || c == '+' || c == '-'

/-- Character class [a-zA-Z0-9.-] of the domain part of the email regex. -/
def emailDomainChar (c : Char) : Bool :=
  c.isAlphanum || c == '.' || c == '-'

/-- Matcher for the tail of the email regex after the at sign:
[a-zA-Z0-9.-]+\.[a-zA-Z]\x7b2,\x7d anchored on both sides.  A match exists
iff the character list splits as a nonempty domain-class run, a dot, and at
least two letters. -/
def emailDomainTld (cs : List Char) : Bool :=
  (List.range cs.length).any (fun i =>
    decide (0 < i) && (cs.take i).all emailDomainChar &&
    (cs.getD i '#' == '.') &&
    decide (2 ≤ (cs.drop (i + 1)).length) && (cs.drop (i + 1)).all Char.isAlpha)

/-- Full anchored match of the email regex against a character list.  The
local part contains no at sign, so it is exactly the run before the first
at sign. -/
def emailCore (cs : List Char) : Bool :=
  let lp := cs.takeWhile (fun c => c != '@')
  match cs.dropWhile (fun c => c != '@') with
  | _ :: rest => (lp ≠ []) && lp.all emailLocalChar && emailDomainTld rest
  | [] => false

/-- re.match of the email pattern against a string: the dollar anchor also
matches just before a single trailing newline. -/
def emailMatch (s : String) : Bool :=
  emailCore s.data ||
    (if s.data.getLast? == some '\n' then emailCore s.data.dropLast else false)

/-- forms.py FormValidator.validate_email. -/
def validate_email (email : String) : Option String :=
  if email = "" then some "Email is required"
  else if !emailMatch email then some "Please enter a valid email address"
  else none

/-- forms.py FormValidator.validate_phone: re.sub removing every non-digit,
then digit-count bounds [10, 15]. -/
def validate_phone (phone : String) : Option String :=
  if phone = "" then some "Phone number is required"
  else
    let digits_only := phone.data.filter Char.isDigit
    if digits_only.length < 10 then some "Phone number must be at least 10 digits"
    else if digits_only.length > 15 then some "Phone number is too long"
    else none

/-- The special-character class of the password regex, enumerated below in
the order the regex lists it. -/
def passwordSpecialChar (c : Char) : Bool :=
  c == '!' || c == '@' || c == '#' || c == '$' || c == '%' || c == '^' ||
  c == '&' || c == '*' || c == '(' || c == ')' || c == '_' || c == '+' ||
  c == '-' || c == '=' || c == '[' || c == ']' || c == '\x7b' || c == '\x7d' ||
  c == ';' || c == '\'' || c == ':' || c == '\"' || c == '\\' || c == '|' ||
  c == ',' || c == '.' || c == '<' || c == '>' || c == '/' || c == '?'

/-- forms.py FormValidator.validate_password: first failing check wins. -/
def validate_password (password : String) : Option String :=
  if password = "" then some "Password is required"
  else if password.length < 8 then some "Password must be at least 8 characters long"
  else if !password.data.any Char.isUpper then
    some "Password must contain at least one uppercase letter"
  else if !password.data.any Char.isLower then
    some "Password must contain at least one lowercase letter"
  else if !password.data.any Char.isDigit then
    some "Password must contain at least one number"
  else if !password.data.any passwordSpecialChar then
    some "Password must contain at least one special character (!@#$%^&*)"
  else none

/-- Character class of the name regex: letters, whitespace, hyphen, and
apostrophe. -/
def nameChar (c : Char) : Bool :=
  c.isAlpha || isPySpace c || c == '-' || c == '\''

/-- forms.py FormValidator.validate_name, parameterized by the field label
used in the error text. -/
def validate_name (name : String) (field_name : String) : Option String :=
  if name = "" then some (field_name ++ " is required")
  else if (pyStrip name).length < 2 then
    some (field_name ++ " must be at least 2 characters long")
  else if (pyStrip name).length > 50 then
    some (field_name ++ " must be less than 50 characters")
  else if !((name.data ≠ []) && name.data.all nameChar) then
    some (field_name ++ " can only contain letters, spaces, hyphens, and apostrophes")
  else none

/-- forms.py FormValidator.validate_gender. -/
def validate_gender (gender : String) : Option String :=
  let valid_genders : List String := ["male", "female", "other", "prefer_not_to_say"]
  if gender = "" then some "Gender is required"
  else if !(valid_genders.contains (pyLower gender)) then
    some "Please select a valid gender option"
  else none

/-- forms.py FormValidator.validate_address. -/
def validate_address (address : String) : Option String :=
  if address = "" then some "Address is required"
  else if (pyStrip address).length < 10 then some "Please enter a complete address"
  else if (pyStrip address).length > 200 then some "Address is too long"
  else none

end FormValidator

/-- A proleptic Gregorian calendar date, as produced by datetime.date. -/
structure PyDate where
  year : Nat
  month : Nat
  day : Nat
deriving DecidableEq, Repr

/-- Gregorian leap-year rule. -/
def isLeapYear (y : Nat) : Bool :=
  (y % 4 == 0 && y % 100 != 0) || y % 400 == 0

/-- Days in a month of the Gregorian calendar. -/
def daysInMonth (y m : Nat) : Nat :=
  if m == 2 then (if isLeapYear y then 29 else 28)
  else if m == 4 || m == 6 || m == 9 || m == 11 then 30
  else 31

/-- Strict lexicographic order on dates: a is strictly before b. -/
def dateLt (a b : PyDate) : Bool :=
  a.year < b.year ||
    (a.year == b.year &&
      (a.month < b.month || (a.month == b.month && a.day < b.day)))

/-- Python tuple comparison (a.month, a.day) < (b.month, b.day). -/
def monthDayLt (a b : PyDate) : Bool :=
  a.month < b.month || (a.month == b.month && a.day < b.day)

/-- Split a character list at every dash, like str.split on a single
dash: the empty list gives one empty field, and leading, trailing and
adjacent dashes give empty fields. -/
def splitDash : List Char → List (List Char)
  | [] => [[]]
  | c :: cs =>
    let r := splitDash cs
    if c == '-' then [] :: r
    else
      match r with
      | h :: t => (c :: h) :: t
      | [] => [[c]]

/-- Value of a digit string. -/
def digitsVal (cs : List Char) : Nat :=
  cs.foldl (fun n c => n * 10 + (c.toNat - 48)) 0

/-- One numeric field of the strptime format: all digits, with the length
bounds of the corresponding strptime directive. -/
def parseDateField (cs : List Char) (minLen maxLen : Nat) : Option Nat :=
  if (cs ≠ []) && cs.all Char.isDigit &&
      minLen ≤ cs.length && cs.length ≤ maxLen then
    some (digitsVal cs)
  else none

/-- datetime.strptime(dob_str, percent-Y dash percent-m dash percent-d)
followed by .date(), returning none where Python raises ValueError: the
year directive takes exactly four digits, month and day one or two digits,
the month must be 1..12, the day 1..days-in-month, and the year at least 1
(datetime.MINYEAR). -/
def pyParseDate (s : String) : Option PyDate :=
  match splitDash s.data with
  | [ys, ms, ds] =>
    match parseDateField ys 4 4, parseDateField ms 1 2, parseDateField ds 1 2 with
    | some y, some m, some d =>
      if 1 ≤ y && 1 ≤ m && m ≤ 12 && 1 ≤ d && d ≤ daysInMonth y m then
        some ⟨y, m, d⟩
      else none
    | _, _, _ => none
  | _ => none

/-- The whole-years age formula of forms.py line 84:
today.year - dob.year - ((today.month, today.day) < (dob.month, dob.day)). -/
def ageInYears (today dob : PyDate) : Int :=
  (today.year : Int) - (dob.year : Int) - (if monthDayLt today dob then 1 else 0)

namespace FormValidator

/-- forms.py FormValidator.validate_date_of_birth, with the ambient
date.today() made an explicit parameter; the try/except around strptime
becomes the none branch of pyParseDate. -/
def validate_date_of_birth (today : PyDate) (dob_str : String) : Option String :=
  if dob_str = "" then some "Date of birth is required"
  else
    match pyParseDate dob_str with
    | none => some "Please enter a valid date in YYYY-MM-DD format"
    | some dob =>
      if dateLt today dob then some "Date of birth cannot be in the future"
      else
        let age := ageInYears today dob
        if age < 13 then some "Patient must be at least 13 years old"
        else if age > 120 then some "Please enter a valid date of birth"
        else none

end FormValidator

namespace RegistrationForm

/-- The eleven required registration fields, in source order. -/
def required_fields : List String :=
  ["first_name", "last_name", "email", "phone", "date_of_birth",
   "gender", "address", "emergency_contact_name", "emergency_contact_phone",
   "password", "confirm_password"]

/-- One per-field block of RegistrationForm.validate: if the field is
present in the submission and its validator returns an error, append it. -/
def fieldStep (data : Submission) (field : String) (check : String → Option String)
    (errors : List String) : List String :=
  match Submission.get? data field with
  | some value =>
    match check value with
    | some e => errors ++ [e]
    | none => errors
  | none => errors

/-- The password-confirmation block at the end of
RegistrationForm.validate: when both password and confirm_password are
present and differ, append the mismatch error. -/
def confirmStep (data : Submission) (errors : List String) : List String :=
  match Submission.get? data "password", Submission.get? data "confirm_password" with
  | some p, some c => if p ≠ c then errors ++ ["Passwords do not match"] else errors
  | _, _ => errors

/-- forms.py RegistrationForm.validate: the error list after the call,
built exactly in source order — required-field pass, then one block per
present field, then the password-confirmation comparison.  The ambient
date.today() used by the date-of-birth validator is the today parameter. -/
def errorsAfterValidate (today : PyDate) (data : Submission) : List String :=
  let errors := FormValidator.validate_required_fields data required_fields
  let errors := fieldStep data "first_name"
    (fun v => FormValidator.validate_name v "First name") errors
  let errors := fieldStep data "last_name"
    (fun v => FormValidator.validate_name v "Last name") errors
  let errors := fieldStep data "email" FormValidator.validate_email errors
  let errors := fieldStep data "phone" FormValidator.validate_phone errors
  let errors := fieldStep data "date_of_birth"
    (FormValidator.validate_date_of_birth today) errors
  let errors := fieldStep data "gender" FormValidator.validate_gender errors
  let errors := fieldStep data "address" FormValidator.validate_address errors
  let errors := fieldStep data "emergency_contact_name"
    (fun v => FormValidator.validate_name v "Emergency contact name") errors
  let errors := fieldStep data "emergency_contact_phone"
    (fun v => (FormValidator.validate_phone v).map
      (fun e => "Emergency contact " ++ pyLower e)) errors
  let errors := fieldStep data "password" FormValidator.validate_password errors
  confirmStep data errors

/-- forms.py RegistrationForm.validate return value: len(self.errors) == 0. -/
def validate (today : PyDate) (data : Submission) : Bool :=
  (errorsAfterValidate today data).length == 0

end RegistrationForm

namespace LoginForm

/-- forms.py LoginForm.validate: the error list after the call.  The
expression not self.data.get(field) is true when the key is absent or maps
to the empty string. -/
def errorsAfterValidate (data : Submission) : List String :=
  let errors : List String := []
  let errors :=
    if (Submission.get? data "email").getD "" = "" then errors ++ ["Email is required"]
    else
      match FormValidator.validate_email ((Submission.get? data "email").getD "") with
      | some e => errors ++ [e]
      | none => errors
  if (Submission.get? data "password").getD "" = "" then errors ++ ["Password is required"]
  else errors

/-- forms.py LoginForm.validate return value. -/
def validate (data : Submission) : Bool :=
  (errorsAfterValidate data).length == 0

end LoginForm

/-- The client session of routes.py: patient_id and patient_name keys, and
the last-activity timestamp (stored in the source as an ISO string, here
as seconds on an integer clock). -/
structure Session where
  patient_id : Option Nat
  patient_name : Option String
  last_activity : Option Int
deriving DecidableEq, Repr

/-- session.clear(). -/
def Session.empty : Session := ⟨none, none, none⟩

/-- Outcome of the before-request timeout hook: the session afterwards,
an optional flash (message, category), and an optional redirect target. -/
structure TimeoutCheck where
  sess : Session
  flash : Option (String × String)
  redirectTo : Option String
deriving DecidableEq, Repr

/-- routes.py check_session_timeout, with datetime.utcnow() made an
explicit integer clock: a session bearing patient_id and last_activity is
cleared with a session-expired flash and a redirect to login when more
than 1800 seconds have elapsed, and otherwise gets last_activity set to
now. -/
def check_session_timeout (now : Int) (s : Session) : TimeoutCheck :=
  match s.patient_id with
  | some _ =>
    match s.last_activity with
    | some la =>
      if now - la > 1800 then
        ⟨Session.empty,
         some ("Your session has expired. Please log in again.", "warning"),
         some "login"⟩
      else ⟨{ s with last_activity := some now }, none, none⟩
    | none => ⟨{ s with last_activity := some now }, none, none⟩
  | none => ⟨s, none, none⟩

/-- A route response: a redirect or a rendered page, each carrying its
flashed (message, category) pairs. -/
inductive Response where
  | redirect (target : String) (flashes : List (String × String))
  | page (template : String) (flashes : List (String × String))
deriving DecidableEq, Repr

/-- routes.py login_required: the decorated function short-circuits to a
redirect to login when the session has no patient_id, and otherwise runs
the wrapped route. -/
def login_required (f : Session → Response) (s : Session) : Response :=
  if (s.patient_id).isNone then
    Response.redirect "login" [("Please log in to access this page.", "warning")]
  else f s

/-- A stored patient credential record, as read by the login route. -/
structure Patient where
  id : Nat
  first_name : String
  full_name : String
  is_active : Bool

/-- routes.py login (POST path), with the record store and the password
check as explicit parameters: form validation, then lookup by normalized
email, then password check, then the active-flag check. -/
def login (find_by_email : String → Option Patient)
    (check_password : Patient → String → Bool)
    (now : Int) (sess : Session) (form : Submission) : Response × Session :=
  if (sess.patient_id).isSome then (Response.redirect "dashboard" [], sess)
  else if LoginForm.validate form then
    let email := pyLower (pyStrip ((Submission.get? form "email").getD ""))
    let password := (Submission.get? form "password").getD ""
    match find_by_email email with
    | some patient =>
      if check_password patient password then
        if patient.is_active then
          (Response.redirect "dashboard"
             [("Welcome back, " ++ patient.first_name ++ "!", "success")],
           { patient_id := some patient.id, patient_name := some patient.full_name,
             last_activity := some now })
        else
          (Response.page "login.html"
             [("Your account has been deactivated. Please contact support.", "danger")],
           sess)
      else
        (Response.page "login.html"
           [("Invalid email or password. Please try again.", "danger")], sess)
    | none =>
      (Response.page "login.html"
         [("Invalid email or password. Please try again.", "danger")], sess)
  else
    (Response.page "login.html"
       ((LoginForm.errorsAfterValidate form).map (fun e => (e, "danger"))), sess)

/-! Spec-side definitions: these follow the wording of the specification,
to be compared with the definitions above that follow the source. -/

/-- Report only the first violated rule of an ordered rule list. -/
def firstViolation : List (Bool × String) → Option String
  | [] => none
  | (bad, msg) :: rest => if bad then some msg else firstViolation rest

/-- The special-character set exactly as listed in the spec, in the order
the spec lists it. -/
def specSpecialSet : List Char :=
  ['!', '@', '#', '$', '%', '^', '&', '*', '(', ')', '_', '+', '-', '=',
   '[', ']', '\x7b', '\x7d', ';', '\'', ':', '\"', '\\', '|', ',', '.',
   '<', '>', '/', '?']

/-- The password policy as worded in the spec: the ordered rules —
empty, too short, missing uppercase, missing lowercase, missing digit,
missing special character — with the first violation reported. -/
def spec_validate_password (s : String) : Option String :=
  firstViolation
    [ (decide (s = ""), "Password is required"),
      (decide (s.length < 8), "Password must be at least 8 characters long"),
      (!s.data.any Char.isUpper, "Password must contain at least one uppercase letter"),
      (!s.data.any Char.isLower, "Password must contain at least one lowercase letter"),
      (!s.data.any Char.isDigit, "Password must contain at least one number"),
      (!s.data.any (fun c => specSpecialSet.contains c),
       "Password must contain at least one special character (!@#$%^&*)") ]

/-- The phone rule as worded in the spec: empty is required; otherwise the
count of remaining digits must lie in the interval [10, 15], with the
too-short and too-long messages for the two ways of leaving it. -/
def spec_validate_phone (phone : String) : Option String :=
  if phone = "" then some "Phone number is required"
  else
    let n := (phone.data.filter Char.isDigit).length
    if 10 ≤ n ∧ n ≤ 15 then none
    else if n < 10 then some "Phone number must be at least 10 digits"
    else some "Phone number is too long"

/-- The date-of-birth rule as worded in the spec: empty, then parseability
as YYYY-MM-DD, then not strictly after the current date, then the
whole-years age must lie in [13, 120], with each bound giving its own
message. -/
def spec_validate_date_of_birth (today : PyDate) (s : String) : Option String :=
  if s = "" then some "Date of birth is required"
  else
    match pyParseDate s with
    | none => some "Please enter a valid date in YYYY-MM-DD format"
    | some dob =>
      if dateLt today dob then some "Date of birth cannot be in the future"
      else if 13 ≤ ageInYears today dob ∧ ageInYears today dob ≤ 120 then none
      else if ageInYears today dob < 13 then some "Patient must be at least 13 years old"
      else some "Please enter a valid date of birth"

/-- The regex special-character class and the set listed in the spec agree. -/
theorem specialChar_set_eq (c : Char) :
    FormValidator.passwordSpecialChar c = specSpecialSet.contains c := by
  rw [Bool.eq_iff_iff]
  simp only [FormValidator.passwordSpecialChar, Bool.or_eq_true, beq_iff_eq,
    specSpecialSet, List.contains, List.elem_iff, List.mem_cons,
    List.not_mem_nil, or_false, or_assoc]

/-- C2: the password validator reports only the first violated rule in the
fixed order empty, too-short, missing uppercase, missing lowercase,
missing digit, missing special character from the listed set, and reports
nothing when all five structural checks pass; in particular "short1!"
gets the length error, "alllowercase1!" the missing-uppercase error, and
"ValidPass1!" no error. -/
theorem validate_password_first_violation :
    (∀ s, FormValidator.validate_password s = spec_validate_password s) ∧
    FormValidator.validate_password "short1!" =
      some "Password must be at least 8 characters long" ∧
    FormValidator.validate_password "alllowercase1!" =
      some "Password must contain at least one uppercase letter" ∧
    FormValidator.validate_password "ValidPass1!" = none := by
  refine ⟨fun s => ?_, by decide, by decide, by decide⟩
  have hset : (fun c => specSpecialSet.contains c) = FormValidator.passwordSpecialChar :=
    funext (fun c => (specialChar_set_eq c).symm)
  simp only [FormValidator.validate_password, spec_validate_password,
    firstViolation, hset, decide_eq_true_eq]

/-- C8: the phone validator requires a nonempty value, strips every
non-digit character, and accepts exactly digit counts in [10, 15], with
the too-short message below and the too-long message above; in particular
"555-123-4567" is valid, "123" too short, and a 16-digit string too
long. -/
theorem validate_phone_spec :
    (∀ s, FormValidator.validate_phone s = spec_validate_phone s) ∧
    FormValidator.validate_phone "555-123-4567" = none ∧
    FormValidator.validate_phone "123" = some "Phone number must be at least 10 digits" ∧
    FormValidator.validate_phone "1234567890123456" = some "Phone number is too long" := by
  refine ⟨fun s => ?_, by decide, by decide, by decide⟩
  simp only [FormValidator.validate_phone, spec_validate_phone]
  split_ifs <;> first | rfl | (exfalso; omega)

/-- C3: the date-of-birth validator applies, in order: empty, parse
failure, strictly-future date, then the whole-years age bounds 13 and 120
with one error each; in particular, with the current date 2026-10-12, a
birth date exactly 13 years earlier is valid, one day later than that
gets the minimum-age error, and a future date gets the future-date
error. -/
theorem validate_date_of_birth_spec :
    (∀ today s, FormValidator.validate_date_of_birth today s =
      spec_validate_date_of_birth today s) ∧
    FormValidator.validate_date_of_birth ⟨2026, 10, 12⟩ "2013-10-12" = none ∧
    FormValidator.validate_date_of_birth ⟨2026, 10, 12⟩ "2013-10-13" =
      some "Patient must be at least 13 years old" ∧
    FormValidator.validate_date_of_birth ⟨2026, 10, 12⟩ "2026-10-13" =
      some "Date of birth cannot be in the future" := by
  refine ⟨fun today s => ?_, by decide, by decide, by decide⟩
  simp only [FormValidator.validate_date_of_birth, spec_validate_date_of_birth]
  split
  · rfl
  · cases pyParseDate s with
    | none => rfl
    | some dob =>
      simp only
      split_ifs <;> first | rfl | (exfalso; omega)

/-- C1: on a request whose session holds a patient_id and a last-activity
time, the timeout hook clears the session and signals session-expired via
a flash and a redirect to login when strictly more than 1800 seconds have
elapsed, and otherwise keeps the session (patient_id untouched) with
last_activity refreshed to the current time. -/
theorem check_session_timeout_expiry (now la : Int) (s : Session) (pid : Nat)
    (hpid : s.patient_id = some pid) (hla : s.last_activity = some la) :
    (now - la > 1800 →
      check_session_timeout now s =
        ⟨Session.empty,
         some ("Your session has expired. Please log in again.", "warning"),
         some "login"⟩) ∧
    (now - la ≤ 1800 →
      check_session_timeout now s =
        ⟨{ s with last_activity := some now }, none, none⟩) := by
  refine ⟨fun h => ?_, fun h => ?_⟩
  · simp [check_session_timeout, hpid, hla, h]
  · simp [check_session_timeout, hpid, hla, not_lt.mpr h]

/-- C1 witness: with last activity at time 0, a request at 1801 seconds
clears the session and signals expiry, and a request at 1799 seconds
keeps it authenticated with last_activity set to 1799. -/
theorem check_session_timeout_expiry_witness :
    check_session_timeout 1801 ⟨some 7, some "Jane Smith", some 0⟩ =
      ⟨Session.empty,
       some ("Your session has expired. Please log in again.", "warning"),
       some "login"⟩ ∧
    check_session_timeout 1799 ⟨some 7, some "Jane Smith", some 0⟩ =
      ⟨⟨some 7, some "Jane Smith", some 1799⟩, none, none⟩ :=
  ⟨(check_session_timeout_expiry 1801 0 _ 7 rfl rfl).1 (by decide),
   (check_session_timeout_expiry 1799 0 _ 7 rfl rfl).2 (by decide)⟩

/-- C9: the login_required gate redirects an anonymous session (no
patient_id) to the login entry point and never runs the wrapped route —
its result does not depend on the wrapped route at all — while a session
holding a patient_id runs the wrapped route. -/
theorem login_required_gate (f g : Session → Response) (s : Session) :
    (s.patient_id = none →
      login_required f s =
        Response.redirect "login" [("Please log in to access this page.", "warning")] ∧
      login_required f s = login_required g s) ∧
    (∀ pid, s.patient_id = some pid → login_required f s = f s) := by
  constructor
  · intro h
    constructor <;> simp [login_required, h]
  · intro pid h
    simp [login_required, h]

/-- C9 witness: the gate at an anonymous session redirects to login for
two different wrapped routes, and at an authenticated session runs the
wrapped route. -/
theorem login_required_gate_witness :
    login_required (fun _ => Response.page "dashboard.html" []) ⟨none, none, none⟩ =
      Response.redirect "login" [("Please log in to access this page.", "warning")] ∧
    login_required (fun _ => Response.page "dashboard.html" []) ⟨none, none, none⟩ =
      login_required (fun _ => Response.page "profile.html" []) ⟨none, none, none⟩ ∧
    login_required (fun _ => Response.page "dashboard.html" []) ⟨some 7, none, some 0⟩ =
      Response.page "dashboard.html" [] := by
  refine ⟨?_, ?_, ?_⟩
  · exact ((login_required_gate (fun _ => Response.page "dashboard.html" [])
      (fun _ => Response.page "profile.html" []) ⟨none, none, none⟩).1 rfl).1
  · exact ((login_required_gate (fun _ => Response.page "dashboard.html" [])
      (fun _ => Response.page "profile.html" []) ⟨none, none, none⟩).1 rfl).2
  · exact (login_required_gate (fun _ => Response.page "dashboard.html" [])
      (fun _ => Response.page "profile.html" []) ⟨some 7, none, some 0⟩).2 7 rfl

/-- Every error already collected survives a per-field block. -/
theorem RegistrationForm.mem_fieldStep (data : Submission) (field : String)
    (check : String → Option String) (errors : List String) (a : String)
    (h : a ∈ errors) : a ∈ RegistrationForm.fieldStep data field check errors := by
  unfold RegistrationForm.fieldStep
  split
  · split
    · exact List.mem_append_left _ h
    · exact h
  · exact h

/-- A per-field block appends the error of a present failing field. -/
theorem RegistrationForm.fieldStep_mem_self (data : Submission) (field : String)
    (check : String → Option String) (errors : List String) (v e : String)
    (hv : Submission.get? data field = some v) (he : check v = some e) :
    e ∈ RegistrationForm.fieldStep data field check errors := by
  unfold RegistrationForm.fieldStep
  rw [hv]
  show e ∈ match check v with
    | some er => errors ++ [er]
    | none => errors
  rw [he]
  exact List.mem_append_right _ (List.mem_singleton.mpr rfl)

/-- A per-field block on a present failing field appends its error. -/
theorem RegistrationForm.fieldStep_some_some (data : Submission) (field : String)
    (check : String → Option String) (errors : List String) (v e : String)
    (hv : Submission.get? data field = some v) (he : check v = some e) :
    RegistrationForm.fieldStep data field check errors = errors ++ [e] := by
  unfold RegistrationForm.fieldStep
  rw [hv]
  show (match check v with
    | some er => errors ++ [er]
    | none => errors) = errors ++ [e]
  rw [he]

/-- A per-field block on a present passing field changes nothing. -/
theorem RegistrationForm.fieldStep_some_none (data : Submission) (field : String)
    (check : String → Option String) (errors : List String) (v : String)
    (hv : Submission.get? data field = some v) (he : check v = none) :
    RegistrationForm.fieldStep data field check errors = errors := by
  unfold RegistrationForm.fieldStep
  rw [hv]
  show (match check v with
    | some er => errors ++ [er]
    | none => errors) = errors
  rw [he]

/-- The confirmation block appends the mismatch error when both password
fields are present and differ. -/
theorem RegistrationForm.confirmStep_mismatch (data : Submission) (errors : List String)
    (p c : String) (hp : Submission.get? data "password" = some p)
    (hc : Submission.get? data "confirm_password" = some c) (hne : p ≠ c) :
    RegistrationForm.confirmStep data errors = errors ++ ["Passwords do not match"] := by
  unfold RegistrationForm.confirmStep
  rw [hp, hc]
  show (if p ≠ c then errors ++ ["Passwords do not match"] else errors) =
    errors ++ ["Passwords do not match"]
  rw [if_pos hne]

/-- Every error already collected survives the confirmation block. -/
theorem RegistrationForm.mem_confirmStep (data : Submission) (errors : List String)
    (a : String) (h : a ∈ errors) : a ∈ RegistrationForm.confirmStep data errors := by
  unfold RegistrationForm.confirmStep
  split
  · split
    · exact List.mem_append_left _ h
    · exact h
  · exact h

/-- A per-field block never lowers the multiplicity of an error. -/
theorem RegistrationForm.count_le_fieldStep (data : Submission) (field : String)
    (check : String → Option String) (errors : List String) (a : String) :
    errors.count a ≤ (RegistrationForm.fieldStep data field check errors).count a := by
  unfold RegistrationForm.fieldStep
  split
  · split
    · rw [List.count_append]; exact Nat.le_add_right _ _
    · exact Nat.le_refl _
  · exact Nat.le_refl _

/-- The confirmation block never lowers the multiplicity of an error. -/
theorem RegistrationForm.count_le_confirmStep (data : Submission) (errors : List String)
    (a : String) :
    errors.count a ≤ (RegistrationForm.confirmStep data errors).count a := by
  unfold RegistrationForm.confirmStep
  split
  · split
    · rw [List.count_append]; exact Nat.le_add_right _ _
    · exact Nat.le_refl _
  · exact Nat.le_refl _

/-- A present field whose stripped value is nonempty passes the
required-field condition. -/
theorem FormValidator.requiredFieldMissing_false (data : Submission) (field v : String)
    (h : Submission.get? data field = some v) (hs : pyStrip v ≠ "") :
    FormValidator.requiredFieldMissing data field = false := by
  have hv : v ≠ "" := fun he => hs (by rw [he]; rfl)
  unfold FormValidator.requiredFieldMissing
  rw [h]
  simp [hv, hs]

/-- C6: once the login form validates, a missing record and a failing
password check produce the same generic failure message, so the two cases
are indistinguishable to the caller, while a matching credential on a
deactivated record produces a distinct message. -/
theorem login_generic_failure_message
    (find_by_email : String → Option Patient) (check_password : Patient → String → Bool)
    (now : Int) (sess : Session) (form : Submission) (p : Patient)
    (hanon : sess.patient_id = none) (hform : LoginForm.validate form = true) :
    (find_by_email (pyLower (pyStrip ((Submission.get? form "email").getD ""))) = none →
      (login find_by_email check_password now sess form).1 =
        Response.page "login.html"
          [("Invalid email or password. Please try again.", "danger")]) ∧
    (find_by_email (pyLower (pyStrip ((Submission.get? form "email").getD ""))) = some p →
      check_password p ((Submission.get? form "password").getD "") = false →
      (login find_by_email check_password now sess form).1 =
        Response.page "login.html"
          [("Invalid email or password. Please try again.", "danger")]) ∧
    (find_by_email (pyLower (pyStrip ((Submission.get? form "email").getD ""))) = some p →
      check_password p ((Submission.get? form "password").getD "") = true →
      p.is_active = false →
      (login find_by_email check_password now sess form).1 =
        Response.page "login.html"
          [("Your account has been deactivated. Please contact support.", "danger")]) ∧
    "Invalid email or password. Please try again." ≠
      "Your account has been deactivated. Please contact support." := by
  refine ⟨fun hfind => ?_, fun hfind hpw => ?_, fun hfind hpw hact => ?_, by decide⟩
  · simp [login, hanon, hform, hfind]
  · simp [login, hanon, hform, hfind, hpw]
  · simp [login, hanon, hform, hfind, hpw, hact]

/-- C6 witness: on the validating form with email a@b.co, the no-record
store and a wrong-password store yield the same generic message, and an
inactive account with a matching password yields the deactivated
message. -/
theorem login_generic_failure_message_witness :
    (login (fun _ => none) (fun _ _ => false) 0 ⟨none, none, none⟩
        [("email", "a@b.co"), ("password", "wrongpass")]).1 =
      Response.page "login.html"
        [("Invalid email or password. Please try again.", "danger")] ∧
    (login (fun _ => some ⟨1, "Jane", "Jane Smith", true⟩) (fun _ _ => false) 0
        ⟨none, none, none⟩ [("email", "a@b.co"), ("password", "wrongpass")]).1 =
      Response.page "login.html"
        [("Invalid email or password. Please try again.", "danger")] ∧
    (login (fun _ => some ⟨1, "Jane", "Jane Smith", false⟩) (fun _ _ => true) 0
        ⟨none, none, none⟩ [("email", "a@b.co"), ("password", "wrongpass")]).1 =
      Response.page "login.html"
        [("Your account has been deactivated. Please contact support.", "danger")] := by
  refine ⟨?_, ?_, ?_⟩
  · exact (login_generic_failure_message (fun _ => none) (fun _ _ => false) 0
      ⟨none, none, none⟩ [("email", "a@b.co"), ("password", "wrongpass")]
      ⟨1, "Jane", "Jane Smith", true⟩ rfl (by decide)).1 rfl
  · exact (login_generic_failure_message (fun _ => some ⟨1, "Jane", "Jane Smith", true⟩)
      (fun _ _ => false) 0 ⟨none, none, none⟩
      [("email", "a@b.co"), ("password", "wrongpass")]
      ⟨1, "Jane", "Jane Smith", true⟩ rfl (by decide)).2.1 rfl rfl
  · exact (login_generic_failure_message (fun _ => some ⟨1, "Jane", "Jane Smith", false⟩)
      (fun _ _ => true) 0 ⟨none, none, none⟩
      [("email", "a@b.co"), ("password", "wrongpass")]
      ⟨1, "Jane", "Jane Smith", false⟩ rfl (by decide)).2.2.1 rfl rfl rfl

/-- C5: for every required registration field that is absent or whose
value strips to the empty string, validate() records the error
"<Label> is required", the label being the field name with underscores
replaced by spaces and title-cased. -/
theorem registration_required_field_message (today : PyDate) (data : Submission)
    (field : String) (hf : field ∈ RegistrationForm.required_fields)
    (hmiss : Submission.get? data field = none ∨
      ∃ v, Submission.get? data field = some v ∧ pyStrip v = "") :
    (pyTitle (replaceUnderscore field) ++ " is required") ∈
      RegistrationForm.errorsAfterValidate today data := by
  have hbad : FormValidator.requiredFieldMissing data field = true := by
    unfold FormValidator.requiredFieldMissing
    rcases hmiss with h | ⟨v, hv, hs⟩
    · rw [h]
    · rw [hv]
      simp [hs]
  have hmem : (pyTitle (replaceUnderscore field) ++ " is required") ∈
      FormValidator.validate_required_fields data RegistrationForm.required_fields := by
    unfold FormValidator.validate_required_fields
    refine List.mem_filterMap.mpr ⟨field, hf, ?_⟩
    rw [hbad]
    rfl
  simp only [RegistrationForm.errorsAfterValidate]
  apply RegistrationForm.mem_confirmStep
  apply RegistrationForm.mem_fieldStep
  apply RegistrationForm.mem_fieldStep
  apply RegistrationForm.mem_fieldStep
  apply RegistrationForm.mem_fieldStep
  apply RegistrationForm.mem_fieldStep
  apply RegistrationForm.mem_fieldStep
  apply RegistrationForm.mem_fieldStep
  apply RegistrationForm.mem_fieldStep
  apply RegistrationForm.mem_fieldStep
  apply RegistrationForm.mem_fieldStep
  exact hmem

/-- C5 witness: a submission containing only first_name lacks email, and
the error list contains "Email is required". -/
theorem registration_required_field_message_witness :
    "Email is required" ∈
      RegistrationForm.errorsAfterValidate ⟨2026, 10, 12⟩ [("first_name", "John")] :=
  registration_required_field_message ⟨2026, 10, 12⟩ [("first_name", "John")]
    "email" (by decide) (Or.inl rfl)

/-- C7: whenever emergency_contact_phone is present and the phone
validator rejects it, the recorded error is the string "Emergency contact "
followed by the lower-cased phone message. -/
theorem registration_emergency_phone_message (today : PyDate) (data : Submission)
    (v e : String)
    (hv : Submission.get? data "emergency_contact_phone" = some v)
    (he : FormValidator.validate_phone v = some e) :
    ("Emergency contact " ++ pyLower e) ∈
      RegistrationForm.errorsAfterValidate today data := by
  simp only [RegistrationForm.errorsAfterValidate]
  apply RegistrationForm.mem_confirmStep
  apply RegistrationForm.mem_fieldStep
  exact RegistrationForm.fieldStep_mem_self data "emergency_contact_phone" _ _ v _
    hv (by rw [he]; rfl)

/-- C7 witness: a present but empty emergency_contact_phone contributes
the error "Emergency contact phone number is required". -/
theorem registration_emergency_phone_message_witness :
    "Emergency contact phone number is required" ∈
      RegistrationForm.errorsAfterValidate ⟨2026, 10, 12⟩
        [("emergency_contact_phone", "")] :=
  registration_emergency_phone_message ⟨2026, 10, 12⟩ [("emergency_contact_phone", "")]
    "" "Phone number is required" rfl rfl

/-- C10: a submission in which email is present and maps to the empty
string collects "Email is required" at least twice: once from the
required-field pass and once from the email field validator. -/
theorem registration_empty_email_double_error (today : PyDate) (data : Submission)
    (h : Submission.get? data "email" = some "") :
    2 ≤ (RegistrationForm.errorsAfterValidate today data).count "Email is required" := by
  simp only [RegistrationForm.errorsAfterValidate]
  refine le_trans ?_ (RegistrationForm.count_le_confirmStep _ _ _)
  refine le_trans ?_ (RegistrationForm.count_le_fieldStep _ _ _ _ _)
  refine le_trans ?_ (RegistrationForm.count_le_fieldStep _ _ _ _ _)
  refine le_trans ?_ (RegistrationForm.count_le_fieldStep _ _ _ _ _)
  refine le_trans ?_ (RegistrationForm.count_le_fieldStep _ _ _ _ _)
  refine le_trans ?_ (RegistrationForm.count_le_fieldStep _ _ _ _ _)
  refine le_trans ?_ (RegistrationForm.count_le_fieldStep _ _ _ _ _)
  refine le_trans ?_ (RegistrationForm.count_le_fieldStep _ _ _ _ _)
  rw [RegistrationForm.fieldStep_some_some data "email" FormValidator.validate_email _
    "" "Email is required" h rfl]
  rw [List.count_append]
  have hmem : "Email is required" ∈
      FormValidator.validate_required_fields data RegistrationForm.required_fields := by
    unfold FormValidator.validate_required_fields
    refine List.mem_filterMap.mpr ⟨"email", by decide, ?_⟩
    have hbad : FormValidator.requiredFieldMissing data "email" = true := by
      unfold FormValidator.requiredFieldMissing
      rw [h]
      rfl
    rw [hbad]
    rfl
  have hone : 1 ≤ (RegistrationForm.fieldStep data "last_name"
      (fun v => FormValidator.validate_name v "Last name")
      (RegistrationForm.fieldStep data "first_name"
        (fun v => FormValidator.validate_name v "First name")
        (FormValidator.validate_required_fields data
          RegistrationForm.required_fields))).count "Email is required" := by
    rw [Nat.succ_le_iff]
    rw [List.count_pos_iff]
    apply RegistrationForm.mem_fieldStep
    apply RegistrationForm.mem_fieldStep
    exact hmem
  have hone' : List.count "Email is required" ["Email is required"] = 1 := by simp
  omega

/-- C4: a registration submission whose eleven required fields are all
present with non-blank values and all pass their field validators, but
whose password differs from confirm_password, is invalid with exactly the
single error "Passwords do not match". -/
theorem registration_password_mismatch_only_error
    (today : PyDate) (data : Submission)
    (fn ln em ph dob g ad ecn ecp pw cpw : String)
    (h1 : Submission.get? data "first_name" = some fn)
    (h2 : Submission.get? data "last_name" = some ln)
    (h3 : Submission.get? data "email" = some em)
    (h4 : Submission.get? data "phone" = some ph)
    (h5 : Submission.get? data "date_of_birth" = some dob)
    (h6 : Submission.get? data "gender" = some g)
    (h7 : Submission.get? data "address" = some ad)
    (h8 : Submission.get? data "emergency_contact_name" = some ecn)
    (h9 : Submission.get? data "emergency_contact_phone" = some ecp)
    (h10 : Submission.get? data "password" = some pw)
    (h11 : Submission.get? data "confirm_password" = some cpw)
    (s1 : pyStrip fn ≠ "") (s2 : pyStrip ln ≠ "") (s3 : pyStrip em ≠ "")
    (s4 : pyStrip ph ≠ "") (s5 : pyStrip dob ≠ "") (s6 : pyStrip g ≠ "")
    (s7 : pyStrip ad ≠ "") (s8 : pyStrip ecn ≠ "") (s9 : pyStrip ecp ≠ "")
    (s10 : pyStrip pw ≠ "") (s11 : pyStrip cpw ≠ "")
    (v1 : FormValidator.validate_name fn "First name" = none)
    (v2 : FormValidator.validate_name ln "Last name" = none)
    (v3 : FormValidator.validate_email em = none)
    (v4 : FormValidator.validate_phone ph = none)
    (v5 : FormValidator.validate_date_of_birth today dob = none)
    (v6 : FormValidator.validate_gender g = none)
    (v7 : FormValidator.validate_address ad = none)
    (v8 : FormValidator.validate_name ecn "Emergency contact name" = none)
    (v9 : FormValidator.validate_phone ecp = none)
    (v10 : FormValidator.validate_password pw = none)
    (hne : pw ≠ cpw) :
    RegistrationForm.validate today data = false ∧
    RegistrationForm.errorsAfterValidate today data = ["Passwords do not match"] := by
  have r1 := FormValidator.requiredFieldMissing_false data "first_name" fn h1 s1
  have r2 := FormValidator.requiredFieldMissing_false data "last_name" ln h2 s2
  have r3 := FormValidator.requiredFieldMissing_false data "email" em h3 s3
  have r4 := FormValidator.requiredFieldMissing_false data "phone" ph h4 s4
  have r5 := FormValidator.requiredFieldMissing_false data "date_of_birth" dob h5 s5
  have r6 := FormValidator.requiredFieldMissing_false data "gender" g h6 s6
  have r7 := FormValidator.requiredFieldMissing_false data "address" ad h7 s7
  have r8 := FormValidator.requiredFieldMissing_false data "emergency_contact_name" ecn h8 s8
  have r9 := FormValidator.requiredFieldMissing_false data "emergency_contact_phone" ecp h9 s9
  have r10 := FormValidator.requiredFieldMissing_false data "password" pw h10 s10
  have r11 := FormValidator.requiredFieldMissing_false data "confirm_password" cpw h11 s11
  have hreq : FormValidator.validate_required_fields data
      RegistrationForm.required_fields = [] := by
    unfold FormValidator.validate_required_fields RegistrationForm.required_fields
    simp [r1, r2, r3, r4, r5, r6, r7, r8, r9, r10, r11]
  have herr : RegistrationForm.errorsAfterValidate today data =
      ["Passwords do not match"] := by
    simp only [RegistrationForm.errorsAfterValidate]
    rw [RegistrationForm.confirmStep_mismatch data _ pw cpw h10 h11 hne]
    rw [RegistrationForm.fieldStep_some_none data "password"
      FormValidator.validate_password _ pw h10 v10]
    rw [RegistrationForm.fieldStep_some_none data "emergency_contact_phone"
      (fun v => (FormValidator.validate_phone v).map
        (fun e => "Emergency contact " ++ pyLower e)) _ ecp h9 (by simp [v9])]
    rw [RegistrationForm.fieldStep_some_none data "emergency_contact_name"
      (fun v => FormValidator.validate_name v "Emergency contact name") _ ecn h8 v8]
    rw [RegistrationForm.fieldStep_some_none data "address"
      FormValidator.validate_address _ ad h7 v7]
    rw [RegistrationForm.fieldStep_some_none data "gender"
      FormValidator.validate_gender _ g h6 v6]
    rw [RegistrationForm.fieldStep_some_none data "date_of_birth"
      (FormValidator.validate_date_of_birth today) _ dob h5 v5]
    rw [RegistrationForm.fieldStep_some_none data "phone"
      FormValidator.validate_phone _ ph h4 v4]
    rw [RegistrationForm.fieldStep_some_none data "email"
      FormValidator.validate_email _ em h3 v3]
    rw [RegistrationForm.fieldStep_some_none data "last_name"
      (fun v => FormValidator.validate_name v "Last name") _ ln h2 v2]
    rw [RegistrationForm.fieldStep_some_none data "first_name"
      (fun v => FormValidator.validate_name v "First name") _ fn h1 v1]
    rw [hreq]
    rfl
  refine ⟨?_, herr⟩
  unfold RegistrationForm.validate
  rw [herr]
  rfl

/-- A concrete registration submission, fully valid except that the
password confirmation differs. -/
def regData : Submission :=
  [("first_name", "John"), ("last_name", "Smith"), ("email", "john@example.com"),
   ("phone", "555-123-4567"), ("date_of_birth", "1990-05-20"), ("gender", "male"),
   ("address", "12 Long Street, Springfield"), ("emergency_contact_name", "Jane Smith"),
   ("emergency_contact_phone", "555-987-6543"), ("password", "ValidPass1!"),
   ("confirm_password", "ValidPass1?")]

/-- C4 witness: on the concrete submission regData, validation fails with
exactly the mismatch error. -/
theorem registration_password_mismatch_only_error_witness :
    RegistrationForm.validate ⟨2026, 10, 12⟩ regData = false ∧
    RegistrationForm.errorsAfterValidate ⟨2026, 10, 12⟩ regData =
      ["Passwords do not match"] :=
  registration_password_mismatch_only_error ⟨2026, 10, 12⟩ regData
    "John" "Smith" "john@example.com" "555-123-4567" "1990-05-20" "male"
    "12 Long Street, Springfield" "Jane Smith" "555-987-6543"
    "ValidPass1!" "ValidPass1?"
    rfl rfl rfl rfl rfl rfl rfl rfl rfl rfl rfl
    (by decide) (by decide) (by decide) (by decide) (by decide) (by decide)
    (by decide) (by decide) (by decide) (by decide) (by decide)
    (by decide) (by decide) (by decide) (by decide) (by decide) (by decide)
    (by decide) (by decide) (by decide) (by decide)
    (by decide)

/-- C10 witness: the submission whose only entry maps email to the empty
string yields at least two copies of "Email is required". -/
theorem registration_empty_email_double_error_witness :
    2 ≤ (RegistrationForm.errorsAfterValidate ⟨2026, 10, 12⟩
      [("email", "")]).count "Email is required" :=
  registration_empty_email_double_error ⟨2026, 10, 12⟩ [("email", "")] rfl

end Medical
